import Mathlib

/-!
Shallow embedding of the inventory management client (React/Firestore).

Numbers of the JavaScript runtime are modelled as rationals, timestamps as
rationals (millisecond values of getTime), and Firestore documents as Lean
structures.  A Firestore updateDoc call merges the given fields into the
stored document; payloads are therefore modelled as structures of Option
fields and the merge as an apply function.  The createdBy field of sale and
purchase records only carries the authenticated user id, takes part in no
verified property and is omitted from those record structures; adjustment
documents keep it, because the inventory page stores it while the
adjustments page edit payload does not carry it, and that merge behaviour
is itself verified.
Each page handler is embedded as a pure function from its inputs (component
state, form data, and the values read back from Firestore during the flow)
to the set of writes it issues.
-/

namespace InventoryApp

/-- An inventory document (collection inventory, interface InventoryItem). -/
structure InventoryItem where
  id : String
  name : String
  quantity : ℚ
  price : ℚ
  avgCost : Option ℚ
  category : String
  lastUpdated : ℚ
  deriving DecidableEq

/-- Payload of an updateDoc call on an inventory document: only the fields
present (some) are overwritten, the others keep their stored value. -/
structure InventoryUpdate where
  quantity : Option ℚ
  price : Option ℚ
  avgCost : Option ℚ
  lastUpdated : Option ℚ
  deriving DecidableEq

/-- Firestore merge semantics of updateDoc on an inventory document. -/
def applyInventoryUpdate (item : InventoryItem) (u : InventoryUpdate) : InventoryItem :=
  { id := item.id
    name := item.name
    quantity := u.quantity.getD item.quantity
    price := u.price.getD item.price
    avgCost := match u.avgCost with
      | some c => some c
      | none => item.avgCost
    category := item.category
    lastUpdated := u.lastUpdated.getD item.lastUpdated }

/-- A sales document (collection sales, interface SaleRecord). -/
structure SaleRecord where
  itemId : String
  name : String
  quantity : ℚ
  price : ℚ
  total : ℚ
  soldAt : ℚ
  category : String
  profit : ℚ
  customerName : String
  customerMobile : String
  deriving DecidableEq

/-- A purchases document (collection purchases, interface PurchaseRecord). -/
structure PurchaseRecord where
  itemId : String
  name : String
  quantity : ℚ
  price : ℚ
  total : ℚ
  purchasedAt : ℚ
  category : String
  deriving DecidableEq

/-- An adjustments document (collection adjustments).  The interface of
Adjustments.tsx omits createdBy, but documents inserted by the inventory
page handleAdjust carry it (the current user id), so the document model
keeps it as an optional field: none models a document without the field. -/
structure AdjustmentRecord where
  itemId : String
  name : String
  quantity : ℚ
  reason : String
  date : String
  category : String
  createdAt : ℚ
  createdBy : Option String
  deriving DecidableEq

/-- Inventory.tsx handleSell: rejects only a missing item, a non-positive
quantity or a non-positive price; on success it issues the inventory
updateDoc (quantity decremented, no stock check) and inserts the sale
record.  The missing-item case is covered by taking the item as input. -/
def handleSell (sellItem : InventoryItem) (sellQuantity : ℚ) (sellPrice : ℚ)
    (customerName customerMobile : String) (now : ℚ) :
    Option (InventoryUpdate × SaleRecord) :=
  if sellQuantity ≤ 0 ∨ sellPrice ≤ 0 then none
  else
    some ({ quantity := some (sellItem.quantity - sellQuantity)
            price := none
            avgCost := none
            lastUpdated := some now },
          { itemId := sellItem.id
            name := sellItem.name
            quantity := sellQuantity
            price := sellPrice
            total := sellQuantity * sellPrice
            soldAt := now
            category := sellItem.category
            profit := (sellPrice - sellItem.avgCost.getD 0) * sellQuantity
            customerName := customerName
            customerMobile := customerMobile })

/-- Inventory.tsx handlePurchase: rejects a non-positive quantity or price;
on success it recomputes the average cost as a quantity-weighted blend
(missing avgCost read as 0) and issues the inventory updateDoc with the
fields quantity, avgCost and lastUpdated only, then inserts the purchase
record. -/
def handlePurchase (purchaseItem : InventoryItem) (purchaseQuantity purchasePrice : ℚ)
    (now : ℚ) : Option (InventoryUpdate × PurchaseRecord) :=
  if purchaseQuantity ≤ 0 ∨ purchasePrice ≤ 0 then none
  else
    let currentTotalCost := purchaseItem.avgCost.getD 0 * purchaseItem.quantity
    let purchaseTotalCost := purchaseQuantity * purchasePrice
    let newTotalQuantity := purchaseItem.quantity + purchaseQuantity
    let newAvgCost := (currentTotalCost + purchaseTotalCost) / newTotalQuantity
    some ({ quantity := some (purchaseItem.quantity + purchaseQuantity)
            price := none
            avgCost := some newAvgCost
            lastUpdated := some now },
          { itemId := purchaseItem.id
            name := purchaseItem.name
            quantity := purchaseQuantity
            price := purchasePrice
            total := purchaseQuantity * purchasePrice
            purchasedAt := now
            category := purchaseItem.category })

/-- Inventory.tsx handleAdjust: rejects an empty or zero quantity, an empty
reason or date, and a change that would make the quantity negative; both
rejections happen before either write.  On success it issues the inventory
updateDoc (quantity only) and inserts the adjustment record, stamped with
the current user id (currentUserUid, possibly absent). -/
def handleAdjust (adjustItem : InventoryItem) (adjustQuantity : Option ℚ)
    (adjustReason adjustDate : String) (now : ℚ) (currentUserUid : Option String) :
    Option (InventoryUpdate × AdjustmentRecord) :=
  match adjustQuantity with
  | none => none
  | some quantityChange =>
    if quantityChange = 0 ∨ adjustReason = "" ∨ adjustDate = "" then none
    else
      let newQuantity := adjustItem.quantity + quantityChange
      if newQuantity < 0 then none
      else
        some ({ quantity := some newQuantity
                price := none
                avgCost := none
                lastUpdated := none },
              { itemId := adjustItem.id
                name := adjustItem.name
                quantity := quantityChange
                reason := adjustReason
                date := adjustDate
                category := adjustItem.category
                createdAt := now
                createdBy := currentUserUid })

/-- Form state of the sales page dialog (saleFormData). -/
structure SaleForm where
  itemId : String
  name : String
  quantity : ℚ
  price : ℚ
  soldAt : Option ℚ
  customerName : String
  customerMobile : String
  deriving DecidableEq

/-- Writes issued by one run of handleSubmitSale: the sale document written
(inserted when adding, full-payload update when editing) and the new
quantity written to the linked inventory document, when that write ran. -/
structure SubmitSaleResult where
  saleWrite : Option SaleRecord
  inventoryWrite : Option ℚ
  deriving DecidableEq

/-- The saleRecordToSave object of handleSubmitSale: name and category come
from the selected inventory item, profit from its avgCost when defined. -/
def saleRecordToSave (form : SaleForm) (selectedItem : InventoryItem) (soldAt : ℚ) :
    SaleRecord :=
  { itemId := form.itemId
    name := selectedItem.name
    quantity := form.quantity
    price := form.price
    total := form.quantity * form.price
    soldAt := soldAt
    category := selectedItem.category
    profit := match selectedItem.avgCost with
      | some c => (form.price - c) * form.quantity
      | none => form.quantity * form.price
    customerName := form.customerName
    customerMobile := form.customerMobile }

/-- Inventory.tsx handleSubmitSale.  Validation rejects an empty itemId, a
non-positive quantity or price, and a missing date; a missing selected item
also rejects.  The edit branch updates the sale document, reads the current
inventory quantity (storedQuantity, none when the document is missing) and
writes back the old minus new difference without any stock or sign check.
The add branch inserts the sale document first and only then checks stock:
with insufficient stock the inventory write is skipped but the inserted
sale document stays. -/
def submitSale (editingSale : Option SaleRecord) (form : SaleForm)
    (selectedItem : Option InventoryItem) (storedQuantity : Option ℚ) :
    SubmitSaleResult :=
  if form.itemId = "" ∨ form.quantity ≤ 0 ∨ form.price ≤ 0 ∨ form.soldAt = none then
    { saleWrite := none, inventoryWrite := none }
  else
    match selectedItem, form.soldAt with
    | none, _ => { saleWrite := none, inventoryWrite := none }
    | some _, none => { saleWrite := none, inventoryWrite := none }
    | some sel, some t =>
      let payload := saleRecordToSave form sel t
      match editingSale with
      | some old =>
        { saleWrite := some payload
          inventoryWrite := storedQuantity.map
            (fun q => q + (old.quantity - form.quantity)) }
      | none =>
        { saleWrite := some payload
          inventoryWrite := match storedQuantity with
            | some q => if form.quantity ≤ q then some (q - form.quantity) else none
            | none => none }

/-- Inventory.tsx handleDeleteSale / Purchases.tsx handleDeletePurchase /
Adjustments.tsx handleDeleteAdjustment all report their writes in this
shape: the quantity written back to the inventory document, when that
write ran, and whether the history document was deleted. -/
structure DeleteResult where
  inventoryWrite : Option ℚ
  recordDeleted : Bool
  deriving DecidableEq

/-- Inventory.tsx handleDeleteSale: adds the sold quantity back (when the
inventory document exists) and deletes the sale document, with no guard. -/
def handleDeleteSale (saleToDelete : SaleRecord) (storedQuantity : Option ℚ) :
    DeleteResult :=
  match storedQuantity with
  | some q => { inventoryWrite := some (q + saleToDelete.quantity), recordDeleted := true }
  | none => { inventoryWrite := none, recordDeleted := true }

/-- Form state of the adjustments page dialog (adjustmentFormData). -/
structure AdjustmentForm where
  itemId : String
  quantity : ℚ
  reason : String
  date : String
  deriving DecidableEq

/-- Payload of the updateDoc call on an adjustment document; a none field
is absent from the payload and survives the merge. -/
structure AdjustmentUpdate where
  itemId : Option String
  name : Option String
  quantity : Option ℚ
  reason : Option String
  date : Option String
  category : Option String
  createdAt : Option ℚ
  createdBy : Option String
  deriving DecidableEq

/-- Firestore merge semantics of updateDoc on an adjustment document: a
field absent from the payload keeps its stored value, createdBy included. -/
def applyAdjustmentUpdate (d : AdjustmentRecord) (u : AdjustmentUpdate) :
    AdjustmentRecord :=
  { itemId := u.itemId.getD d.itemId
    name := u.name.getD d.name
    quantity := u.quantity.getD d.quantity
    reason := u.reason.getD d.reason
    date := u.date.getD d.date
    category := u.category.getD d.category
    createdAt := u.createdAt.getD d.createdAt
    createdBy := match u.createdBy with
      | some v => some v
      | none => d.createdBy }

/-- The adjustmentRecordToSave object of handleSubmitAdjustment, as the
document inserted by the add branch: it carries no createdBy field. -/
def adjustmentRecordToSave (form : AdjustmentForm) (selectedItem : InventoryItem)
    (now : ℚ) : AdjustmentRecord :=
  { itemId := form.itemId
    name := selectedItem.name
    quantity := form.quantity
    reason := form.reason
    date := form.date
    category := selectedItem.category
    createdAt := now
    createdBy := none }

/-- The adjustmentRecordToSave object as the updateDoc payload of the edit
branch: it carries itemId, name, quantity, reason, date, category and
createdAt — the latter being the time of the edit — and no createdBy. -/
def adjustmentUpdatePayload (form : AdjustmentForm) (selectedItem : InventoryItem)
    (now : ℚ) : AdjustmentUpdate :=
  { itemId := some form.itemId
    name := some selectedItem.name
    quantity := some form.quantity
    reason := some form.reason
    date := some form.date
    category := some selectedItem.category
    createdAt := some now
    createdBy := none }

/-- Writes issued by one run of handleSubmitAdjustment. -/
structure SubmitAdjustmentResult where
  recordInsert : Option AdjustmentRecord
  recordUpdate : Option AdjustmentUpdate
  inventoryWrite : Option ℚ
  deriving DecidableEq

/-- Adjustments.tsx handleSubmitAdjustment.  Validation rejects an empty
itemId, a zero quantity, an empty reason or date, and a missing selected
item.  The edit branch updates the adjustment document first; it then looks
up the original record (originalAdjustment) and the inventory document
(storedQuantity) and cancels only the inventory write when the new quantity
would be negative.  The add branch inserts the adjustment document and then
issues the inventory update unconditionally, even when the new quantity is
negative (the negative case only changes the snackbar message). -/
def submitAdjustment (editingAdjustment : Option AdjustmentRecord)
    (form : AdjustmentForm) (selectedItem : Option InventoryItem)
    (originalAdjustment : Option AdjustmentRecord) (storedQuantity : Option ℚ)
    (now : ℚ) : SubmitAdjustmentResult :=
  if form.itemId = "" ∨ form.quantity = 0 ∨ form.reason = "" ∨ form.date = "" then
    { recordInsert := none, recordUpdate := none, inventoryWrite := none }
  else
    match selectedItem with
    | none => { recordInsert := none, recordUpdate := none, inventoryWrite := none }
    | some sel =>
      match editingAdjustment with
      | some _ =>
        let u := adjustmentUpdatePayload form sel now
        match originalAdjustment with
        | none => { recordInsert := none, recordUpdate := some u, inventoryWrite := none }
        | some orig =>
          match storedQuantity with
          | none => { recordInsert := none, recordUpdate := some u, inventoryWrite := none }
          | some q =>
            let updated := q + (form.quantity - orig.quantity)
            if updated < 0 then
              { recordInsert := none, recordUpdate := some u, inventoryWrite := none }
            else
              { recordInsert := none, recordUpdate := some u, inventoryWrite := some updated }
      | none =>
        match storedQuantity with
        | none =>
          { recordInsert := some (adjustmentRecordToSave form sel now)
            recordUpdate := none
            inventoryWrite := none }
        | some q =>
          { recordInsert := some (adjustmentRecordToSave form sel now)
            recordUpdate := none
            inventoryWrite := some (q + form.quantity) }

/-- Adjustments.tsx handleDeleteAdjustment: rejects, before both writes,
a deletion whose reversal would make the quantity negative. -/
def handleDeleteAdjustment (adjustmentToDelete : AdjustmentRecord)
    (storedQuantity : Option ℚ) : DeleteResult :=
  match storedQuantity with
  | some q =>
    let updated := q - adjustmentToDelete.quantity
    if updated < 0 then { inventoryWrite := none, recordDeleted := false }
    else { inventoryWrite := some updated, recordDeleted := true }
  | none => { inventoryWrite := none, recordDeleted := true }

/-- Form state of the purchases page dialog (purchaseFormData). -/
structure PurchaseForm where
  itemId : String
  quantity : ℚ
  price : ℚ
  purchasedAt : Option ℚ
  deriving DecidableEq

/-- The purchaseRecordToSave object of handleSubmitPurchase. -/
def purchaseRecordToSave (form : PurchaseForm) (selectedItem : InventoryItem)
    (purchasedAt : ℚ) : PurchaseRecord :=
  { itemId := form.itemId
    name := selectedItem.name
    quantity := form.quantity
    price := form.price
    total := form.quantity * form.price
    purchasedAt := purchasedAt
    category := selectedItem.category }

/-- Writes issued by one run of handleSubmitPurchase: the purchase document
inserted (add branch) or updated (edit branch), and the inventory updateDoc
payload when that write ran. -/
structure SubmitPurchaseResult where
  recordInsert : Option PurchaseRecord
  recordUpdate : Option PurchaseRecord
  inventoryWrite : Option InventoryUpdate
  deriving DecidableEq

/-- Purchases.tsx handleSubmitPurchase.  Validation rejects an empty itemId,
a non-positive quantity, a negative price (zero is allowed) and a missing
date; a missing selected item or a missing inventory document also rejects
before any write.  The edit branch updates the purchase document first,
looks up the original record and cancels only the inventory write when the
new quantity would be negative; otherwise it writes quantity and price (not
avgCost).  The add branch inserts the purchase document and writes quantity
and price (not avgCost) unconditionally. -/
def submitPurchase (editingPurchase : Option PurchaseRecord) (form : PurchaseForm)
    (selectedItem : Option InventoryItem) (originalPurchase : Option PurchaseRecord)
    (storedQuantity : Option ℚ) : SubmitPurchaseResult :=
  if form.itemId = "" ∨ form.quantity ≤ 0 ∨ form.price < 0 ∨ form.purchasedAt = none then
    { recordInsert := none, recordUpdate := none, inventoryWrite := none }
  else
    match selectedItem, form.purchasedAt with
    | none, _ => { recordInsert := none, recordUpdate := none, inventoryWrite := none }
    | some _, none => { recordInsert := none, recordUpdate := none, inventoryWrite := none }
    | some sel, some t =>
      match storedQuantity with
      | none => { recordInsert := none, recordUpdate := none, inventoryWrite := none }
      | some q =>
        let payload := purchaseRecordToSave form sel t
        match editingPurchase with
        | some _ =>
          match originalPurchase with
          | none => { recordInsert := none, recordUpdate := some payload, inventoryWrite := none }
          | some orig =>
            let updated := q + (form.quantity - orig.quantity)
            if updated < 0 then
              { recordInsert := none, recordUpdate := some payload, inventoryWrite := none }
            else
              { recordInsert := none
                recordUpdate := some payload
                inventoryWrite := some { quantity := some updated
                                         price := some form.price
                                         avgCost := none
                                         lastUpdated := none } }
        | none =>
          { recordInsert := some payload
            recordUpdate := none
            inventoryWrite := some { quantity := some (q + form.quantity)
                                     price := some form.price
                                     avgCost := none
                                     lastUpdated := none } }

/-- Purchases.tsx handleDeletePurchase: rejects, before both writes, a
deletion whose reversal would make the quantity negative; with the
inventory document missing it still deletes the purchase document. -/
def handleDeletePurchase (purchaseToDelete : PurchaseRecord)
    (storedQuantity : Option ℚ) : DeleteResult :=
  match storedQuantity with
  | some q =>
    let updated := q - purchaseToDelete.quantity
    if updated < 0 then { inventoryWrite := none, recordDeleted := false }
    else { inventoryWrite := some updated, recordDeleted := true }
  | none => { inventoryWrite := none, recordDeleted := true }

/-- One line of the staff dashboard sale document (part of interface Sale). -/
structure StaffSaleLine where
  itemId : String
  name : String
  quantity : ℚ
  price : ℚ
  deriving DecidableEq

/-- The staff dashboard sale document. -/
structure StaffSale where
  items : List StaffSaleLine
  total : ℚ
  date : ℚ
  deriving DecidableEq

/-- StaffDashboard handleCreateSale: rejects a missing item, a non-positive
quantity or an empty price field, and rejects, before any write, a sale
whose quantity exceeds the current stock; on success it inserts the sale
document and writes the decremented quantity. -/
def handleCreateSale (selectedItem : Option InventoryItem) (saleQuantity : ℚ)
    (salePrice : Option ℚ) (now : ℚ) : Option (StaffSale × ℚ) :=
  match selectedItem, salePrice with
  | none, _ => none
  | _, none => none
  | some item, some p =>
    if saleQuantity ≤ 0 then none
    else if item.quantity < saleQuantity then none
    else
      some ({ items := [{ itemId := item.id
                          name := item.name
                          quantity := saleQuantity
                          price := p }]
              total := saleQuantity * p
              date := now },
            item.quantity - saleQuantity)

/-- A users document.  The role-relevant fields are explicit; every other
field the document may carry is kept abstract in the others list so that
frame conditions can be stated. -/
structure UserDoc where
  uid : Option String
  email : Option String
  role : Option String
  createdAt : Option ℚ
  others : List (String × String)
  deriving DecidableEq

/-- Firestore merge semantics of the updateDoc call that patches only the
role field of a users document. -/
def patchRole (d : UserDoc) (newRole : String) : UserDoc :=
  { uid := d.uid
    email := d.email
    role := some newRole
    createdAt := d.createdAt
    others := d.others }

/-- Writes issued by the profile-repair part of Login handleSubmit:
createdDoc is the single setDoc call when the document was missing,
rolePatched records whether the role-only updateDoc ran, and storedDoc is
the resulting users document. -/
structure LoginWriteSet where
  createdDoc : Option UserDoc
  rolePatched : Bool
  storedDoc : UserDoc
  deriving DecidableEq

/-- Login handleSubmit after a successful authentication: with no users
document, one document is created with uid, email, role staff and a
creation timestamp; with a document that lacks a role, only the role field
is patched to staff; otherwise nothing is written. -/
def loginEnsureRole (existingDoc : Option UserDoc) (uid email : String) (now : ℚ) :
    LoginWriteSet :=
  match existingDoc with
  | none =>
    let d : UserDoc :=
      { uid := some uid
        email := some email
        role := some "staff"
        createdAt := some now
        others := [] }
    { createdDoc := some d, rolePatched := false, storedDoc := d }
  | some d =>
    if d.role = none then
      { createdDoc := none, rolePatched := true, storedDoc := patchRole d "staff" }
    else
      { createdDoc := none, rolePatched := false, storedDoc := d }

/-- The two user roles. -/
inductive Role where
  | admin : Role
  | staff : Role
  deriving DecidableEq

/-- firebase.ts getUserRole: the users document read is modelled as
none (document missing) or some r where r is the role field (none when the
field is missing).  A missing document or role throws; otherwise the role
is returned. -/
def getUserRole (userDocRead : Option (Option Role)) : Except String Role :=
  match userDocRead with
  | none => Except.error "User document not found"
  | some none => Except.error "User role not found"
  | some (some r) => Except.ok r

/-- The states ProtectedRoute can render. -/
inductive RouteView where
  | loadingView : RouteView
  | errorView : String → RouteView
  | redirectLogin : RouteView
  | accessDenied : RouteView
  | outlet : RouteView
  deriving DecidableEq

/-- ProtectedRoute fetchRole effect, run once the auth state is settled:
starting from the initial state (userRole null, error null), a missing user
leaves both null; otherwise the role lookup fills userRole on success and
error on failure.  The result is the pair (userRole, error) once
isRoleLoading has become false. -/
def fetchRoleState (user : Option String) (store : String → Option (Option Role)) :
    Option Role × Option String :=
  match user with
  | none => (none, none)
  | some u =>
    match getUserRole (store u) with
    | Except.ok r => (some r, none)
    | Except.error e => (none, some e)

/-- The render body of ProtectedRoute: loading wins over everything, then
the error view, then the missing-user redirect, then the role check
(denied when a required role is set and the fetched role differs),
otherwise the protected outlet. -/
def renderProtectedRoute (authLoading roleLoading : Bool) (err : Option String)
    (user : Option String) (requiredRole : Option Role) (userRole : Option Role) :
    RouteView :=
  if authLoading = true ∨ roleLoading = true then RouteView.loadingView
  else
    match err with
    | some e => RouteView.errorView e
    | none =>
      match user with
      | none => RouteView.redirectLogin
      | some _ =>
        match requiredRole with
        | some r => if userRole ≠ some r then RouteView.accessDenied else RouteView.outlet
        | none => RouteView.outlet

/-- ProtectedRoute once both the auth check and the role fetch finished,
composed from the fetch effect and the render body. -/
def protectedRouteView (user : Option String) (store : String → Option (Option Role))
    (requiredRole : Option Role) : RouteView :=
  let s := fetchRoleState user store
  renderProtectedRoute false false s.2 user requiredRole s.1

/-- App.tsx wraps the /users and /admin routes in
ProtectedRoute requiredRole admin. -/
def adminRouteRequiredRole : Option Role := some Role.admin

/-- A field value of a duck-typed history document as the list comparators
see it: null or undefined, a number, a string, or a Timestamp. -/
inductive FieldValue where
  | null : FieldValue
  | num : ℚ → FieldValue
  | str : String → FieldValue
  | time : ℚ → FieldValue
  deriving DecidableEq

/-- Sort direction of a table column. -/
inductive SortOrder where
  | asc : SortOrder
  | desc : SortOrder
  deriving DecidableEq

/-- The shared tail of the three list comparators, reached when neither
value is null: on the timestamp column a non-Timestamp value counts as 0;
numbers compare by difference; strings compare lowercased; any other
combination returns 0. -/
def compareNonNullValues (isTimeKey : Bool) (order : SortOrder)
    (valueA valueB : FieldValue) : ℚ :=
  if isTimeKey then
    let dateA := match valueA with
      | FieldValue.time t => t
      | _ => 0
    let dateB := match valueB with
      | FieldValue.time t => t
      | _ => 0
    if order = SortOrder.asc then dateA - dateB else dateB - dateA
  else
    match valueA, valueB with
    | FieldValue.num a, FieldValue.num b =>
      if order = SortOrder.asc then a - b else b - a
    | FieldValue.str a, FieldValue.str b =>
      let stringA := a.toLower
      let stringB := b.toLower
      if stringB < stringA then (if order = SortOrder.asc then 1 else -1)
      else if stringA < stringB then (if order = SortOrder.asc then -1 else 1)
      else 0
    | _, _ => 0

/-- The comparator body duplicated across the sales, purchases and
adjustments pages: the null checks come first and ignore the column type;
only then is the value dispatched on the column and its runtime type. -/
def compareSortValues (isTimeKey : Bool) (order : SortOrder)
    (valueA valueB : FieldValue) : ℚ :=
  if valueA = FieldValue.null ∧ valueB = FieldValue.null then 0
  else if valueA = FieldValue.null then (if order = SortOrder.asc then -1 else 1)
  else if valueB = FieldValue.null then (if order = SortOrder.asc then 1 else -1)
  else compareNonNullValues isTimeKey order valueA valueB

/-- Sortable columns of the sales list (keys of SaleRecord). -/
inductive SaleKey where
  | itemId | name | quantity | price | total | soldAt
  | category | profit | customerName | customerMobile
  deriving DecidableEq

/-- A sales row as the comparator reads it: a field value per column. -/
def SaleRow : Type := SaleKey → FieldValue

/-- The sortedSales comparator of the sales page; soldAt is its
timestamp column. -/
def salesComparator (orderBy : SaleKey) (order : SortOrder) (a b : SaleRow) : ℚ :=
  compareSortValues (decide (orderBy = SaleKey.soldAt)) order (a orderBy) (b orderBy)

/-- Sortable columns of the purchases list (keys of PurchaseRecord). -/
inductive PurchaseKey where
  | itemId | name | quantity | price | total | purchasedAt | category
  deriving DecidableEq

/-- A purchases row as the comparator reads it. -/
def PurchaseRow : Type := PurchaseKey → FieldValue

/-- The sortedPurchases comparator of the purchases page; purchasedAt is
its timestamp column. -/
def purchasesComparator (orderBy : PurchaseKey) (order : SortOrder)
    (a b : PurchaseRow) : ℚ :=
  compareSortValues (decide (orderBy = PurchaseKey.purchasedAt)) order
    (a orderBy) (b orderBy)

/-- Sortable columns of the adjustments list (keys of AdjustmentRecord). -/
inductive AdjustmentKey where
  | itemId | name | quantity | reason | date | category | createdAt
  deriving DecidableEq

/-- An adjustments row as the comparator reads it. -/
def AdjustmentRow : Type := AdjustmentKey → FieldValue

/-- The sortedAdjustments comparator of the adjustments page; createdAt is
its timestamp column. -/
def adjustmentsComparator (orderBy : AdjustmentKey) (order : SortOrder)
    (a b : AdjustmentRow) : ℚ :=
  compareSortValues (decide (orderBy = AdjustmentKey.createdAt)) order
    (a orderBy) (b orderBy)

/-- Sample inventory item with a defined average cost, for concrete runs. -/
def widgetItem : InventoryItem :=
  { id := "i1"
    name := "Widget"
    quantity := 10
    price := 3
    avgCost := some 5
    category := "general"
    lastUpdated := 0 }

/-- Sample inventory item with no average cost, for concrete runs. -/
def gadgetItem : InventoryItem :=
  { id := "i2"
    name := "Gadget"
    quantity := 4
    price := 3
    avgCost := none
    category := "general"
    lastUpdated := 0 }

/-- Sample inventory item with one unit in stock, for concrete runs. -/
def lowStockItem : InventoryItem :=
  { id := "i3"
    name := "Bolt"
    quantity := 1
    price := 4
    avgCost := some 2
    category := "hardware"
    lastUpdated := 0 }

/-- Sample sale form selling two widgets at price 12, for concrete runs. -/
def widgetSaleForm : SaleForm :=
  { itemId := "i1"
    name := "Widget"
    quantity := 2
    price := 12
    soldAt := some 0
    customerName := ""
    customerMobile := "" }

/-- Sample sale form selling two gadgets at price 12, for concrete runs. -/
def gadgetSaleForm : SaleForm :=
  { itemId := "i2"
    name := "Gadget"
    quantity := 2
    price := 12
    soldAt := some 0
    customerName := ""
    customerMobile := "" }

/-- Sample adjustment form with delta -3, for concrete runs. -/
def negAdjustmentForm : AdjustmentForm :=
  { itemId := "i1"
    quantity := -3
    reason := "Correction"
    date := "2026-01-01" }

/-- Sample purchase form buying five units at price 7, for concrete runs. -/
def widgetPurchaseForm : PurchaseForm :=
  { itemId := "i1"
    quantity := 5
    price := 7
    purchasedAt := some 0 }

/-- Sample stored sale record of three widgets, for concrete runs. -/
def storedWidgetSale : SaleRecord :=
  { itemId := "i1"
    name := "Widget"
    quantity := 3
    price := 12
    total := 36
    soldAt := 0
    category := "general"
    profit := 21
    customerName := ""
    customerMobile := "" }

/-- Sample stored purchase record of four widgets, for concrete runs. -/
def storedWidgetPurchase : PurchaseRecord :=
  { itemId := "i1"
    name := "Widget"
    quantity := 4
    price := 6
    total := 24
    purchasedAt := 0
    category := "general" }

/-- Sample stored adjustment record with delta 2, created through the
adjustments page and therefore without a createdBy field. -/
def storedAdjustment : AdjustmentRecord :=
  { itemId := "i1"
    name := "Widget"
    quantity := 2
    reason := "Correction"
    date := "2025-12-01"
    category := "general"
    createdAt := 5
    createdBy := none }

/-- Sample stored adjustment record created through the inventory page
handleAdjust, which stamps the current user id into createdBy. -/
def inventoryPageAdjustment : AdjustmentRecord :=
  { itemId := "i1"
    name := "Widget"
    quantity := 2
    reason := "Correction"
    date := "2025-12-01"
    category := "general"
    createdAt := 5
    createdBy := some "u1" }

/-- Sample users document without a role field, for concrete runs. -/
def roleLessUserDoc : UserDoc :=
  { uid := some "u1"
    email := some "a@b.c"
    role := none
    createdAt := some 3
    others := [("photoURL", "p.png")] }

/-- Claim C4: for every sell of quantity q at sale price p against an item
whose average cost is c, the recorded SaleRecord profit equals (p - c) times
q; if the avgCost of the item is undefined, the recorded profit equals p
times q.  This holds in both sell paths: handleSell and handleSubmitSale. -/
theorem c4_sale_profit :
    (∀ (item : InventoryItem) (q p : ℚ) (cn cm : String) (now c : ℚ),
      0 < q → 0 < p → item.avgCost = some c →
      (handleSell item q p cn cm now).map (fun r => r.2.profit)
        = some ((p - c) * q))
    ∧ (∀ (item : InventoryItem) (q p : ℚ) (cn cm : String) (now : ℚ),
      0 < q → 0 < p → item.avgCost = none →
      (handleSell item q p cn cm now).map (fun r => r.2.profit)
        = some (p * q))
    ∧ (∀ (editingSale : Option SaleRecord) (form : SaleForm) (sel : InventoryItem)
        (sq : Option ℚ) (t c : ℚ),
      form.itemId ≠ "" → 0 < form.quantity → 0 < form.price → form.soldAt = some t →
      sel.avgCost = some c →
      (submitSale editingSale form (some sel) sq).saleWrite.map (fun r => r.profit)
        = some ((form.price - c) * form.quantity))
    ∧ (∀ (editingSale : Option SaleRecord) (form : SaleForm) (sel : InventoryItem)
        (sq : Option ℚ) (t : ℚ),
      form.itemId ≠ "" → 0 < form.quantity → 0 < form.price → form.soldAt = some t →
      sel.avgCost = none →
      (submitSale editingSale form (some sel) sq).saleWrite.map (fun r => r.profit)
        = some (form.price * form.quantity)) := by
  refine ⟨?_, ?_, ?_, ?_⟩
  · intro item q p cn cm now c hq hp hc
    simp [handleSell, hq.not_le, hp.not_le, hc]
  · intro item q p cn cm now hq hp hc
    simp [handleSell, hq.not_le, hp.not_le, hc]
  · intro editingSale form sel sq t c hid hq hp ht hc
    cases editingSale <;>
      simp [submitSale, hid, hq.not_le, hp.not_le, ht, saleRecordToSave, hc]
  · intro editingSale form sel sq t hid hq hp ht hc
    cases editingSale <;>
      simp [submitSale, hid, hq.not_le, hp.not_le, ht, saleRecordToSave, hc,
        mul_comm]

/-- Witness for C4: selling 2 units at price 12 against an average cost of 5
records profit 14; with no average cost the same sale records profit 24. -/
theorem c4_sale_profit_witness :
    ((handleSell widgetItem 2 12 "" "" 0).map (fun r => r.2.profit) = some 14)
    ∧ ((handleSell gadgetItem 2 12 "" "" 0).map (fun r => r.2.profit) = some 24)
    ∧ ((submitSale none widgetSaleForm (some widgetItem) (some 10)).saleWrite.map
        (fun r => r.profit) = some 14)
    ∧ ((submitSale none gadgetSaleForm (some gadgetItem) (some 4)).saleWrite.map
        (fun r => r.profit) = some 24) := by
  refine ⟨?_, ?_, ?_, ?_⟩
  · have h := c4_sale_profit.1 widgetItem 2 12 "" "" 0 5
      (by norm_num) (by norm_num) rfl
    norm_num at h ⊢
    exact h
  · have h := c4_sale_profit.2.1 gadgetItem 2 12 "" "" 0
      (by norm_num) (by norm_num) rfl
    norm_num at h ⊢
    exact h
  · have h := c4_sale_profit.2.2.1 none widgetSaleForm widgetItem (some 10) 0 5
      (by simp [widgetSaleForm]) (by norm_num [widgetSaleForm])
      (by norm_num [widgetSaleForm]) rfl rfl
    norm_num [widgetSaleForm] at h ⊢
    exact h
  · have h := c4_sale_profit.2.2.2 none gadgetSaleForm gadgetItem (some 4) 0
      (by simp [gadgetSaleForm]) (by norm_num [gadgetSaleForm])
      (by norm_num [gadgetSaleForm]) rfl rfl
    norm_num [gadgetSaleForm] at h ⊢
    exact h

/-- Claim C5: editing an existing SaleRecord whose quantity changes from q1
to q2 leaves the linked inventory quantity at its pre-edit value plus
(q1 - q2): the edit branch of handleSubmitSale writes back the fetched
quantity plus the old-minus-new difference. -/
theorem c5_sale_edit_inventory_delta
    (old : SaleRecord) (form : SaleForm) (sel : InventoryItem) (q t : ℚ)
    (hid : form.itemId ≠ "") (hq : 0 < form.quantity) (hp : 0 < form.price)
    (ht : form.soldAt = some t) :
    (submitSale (some old) form (some sel) (some q)).inventoryWrite
      = some (q + (old.quantity - form.quantity)) := by
  simp [submitSale, hid, hq.not_le, hp.not_le, ht]

/-- Witness for C5: editing a stored sale of 3 widgets down to 2 against a
fetched inventory quantity of 10 writes back 11. -/
theorem c5_sale_edit_inventory_delta_witness :
    (submitSale (some storedWidgetSale) widgetSaleForm (some widgetItem)
      (some 10)).inventoryWrite = some 11 := by
  have h := c5_sale_edit_inventory_delta storedWidgetSale widgetSaleForm
    widgetItem 10 0 (by simp [widgetSaleForm]) (by norm_num [widgetSaleForm])
    (by norm_num [widgetSaleForm]) rfl
  norm_num [widgetSaleForm, storedWidgetSale] at h ⊢
  exact h

/-- Claim C6: deleting a PurchaseRecord of quantity q against an existing
inventory document of quantity Q decreases the quantity by q and deletes the
record when Q - q is non-negative; otherwise the operation is rejected with
neither the inventory write nor the record deletion applied. -/
theorem c6_delete_purchase (pur : PurchaseRecord) (q : ℚ) :
    (0 ≤ q - pur.quantity →
      handleDeletePurchase pur (some q)
        = { inventoryWrite := some (q - pur.quantity), recordDeleted := true })
    ∧ (q - pur.quantity < 0 →
      handleDeletePurchase pur (some q)
        = { inventoryWrite := none, recordDeleted := false }) := by
  constructor
  · intro h
    simp [handleDeletePurchase, not_lt.mpr h]
  · intro h
    simp [handleDeletePurchase, h]

/-- Witness for C6: deleting a purchase of 4 units leaves quantity 6 of 10
and deletes the record, while against a stock of 1 the deletion is rejected
and nothing is written. -/
theorem c6_delete_purchase_witness :
    (handleDeletePurchase storedWidgetPurchase (some 10)
      = { inventoryWrite := some 6, recordDeleted := true })
    ∧ (handleDeletePurchase storedWidgetPurchase (some 1)
      = { inventoryWrite := none, recordDeleted := false }) := by
  constructor
  · have h := (c6_delete_purchase storedWidgetPurchase 10).1
      (by norm_num [storedWidgetPurchase])
    norm_num [storedWidgetPurchase] at h ⊢
    exact h
  · have h := (c6_delete_purchase storedWidgetPurchase 1).2
      (by norm_num [storedWidgetPurchase])
    exact h

/-- Claim C7: a successful sign-in by an identity with no users document
creates exactly one users document, with role staff; a sign-in by an
identity whose document lacks a role patches the role to staff and changes
no other field of the document. -/
theorem c7_login_role_provision :
    (∀ (uid email : String) (now : ℚ),
      loginEnsureRole none uid email now
        = { createdDoc := some { uid := some uid, email := some email,
                                 role := some "staff", createdAt := some now,
                                 others := [] }
            rolePatched := false
            storedDoc := { uid := some uid, email := some email,
                           role := some "staff", createdAt := some now,
                           others := [] } })
    ∧ (∀ (d : UserDoc) (uid email : String) (now : ℚ), d.role = none →
      loginEnsureRole (some d) uid email now
        = { createdDoc := none, rolePatched := true, storedDoc := patchRole d "staff" }
      ∧ (patchRole d "staff").role = some "staff"
      ∧ (patchRole d "staff").uid = d.uid
      ∧ (patchRole d "staff").email = d.email
      ∧ (patchRole d "staff").createdAt = d.createdAt
      ∧ (patchRole d "staff").others = d.others) := by
  constructor
  · intro uid email now
    rfl
  · intro d uid email now hrole
    refine ⟨?_, rfl, rfl, rfl, rfl, rfl⟩
    simp [loginEnsureRole, hrole]

/-- Witness for C7: a fresh identity gets exactly one staff document, and a
stored document missing its role is patched to staff with its uid, email,
creation time and remaining fields intact. -/
theorem c7_login_role_provision_witness :
    (loginEnsureRole none "u9" "x@y.z" 7
      = { createdDoc := some { uid := some "u9", email := some "x@y.z",
                               role := some "staff", createdAt := some 7,
                               others := [] }
          rolePatched := false
          storedDoc := { uid := some "u9", email := some "x@y.z",
                         role := some "staff", createdAt := some 7,
                         others := [] } })
    ∧ (loginEnsureRole (some roleLessUserDoc) "u1" "a@b.c" 7
        = { createdDoc := none, rolePatched := true
            storedDoc := patchRole roleLessUserDoc "staff" }
      ∧ (patchRole roleLessUserDoc "staff").role = some "staff"
      ∧ (patchRole roleLessUserDoc "staff").uid = some "u1"
      ∧ (patchRole roleLessUserDoc "staff").email = some "a@b.c"
      ∧ (patchRole roleLessUserDoc "staff").createdAt = some 3
      ∧ (patchRole roleLessUserDoc "staff").others = [("photoURL", "p.png")]) := by
  constructor
  · exact c7_login_role_provision.1 "u9" "x@y.z" 7
  · have h := c7_login_role_provision.2 roleLessUserDoc "u1" "a@b.c" 7 rfl
    simpa [roleLessUserDoc] using h

/-- Claim C8: with the auth state settled and a role fetch completed, an
identity whose fetched role is staff requesting a route guarded with
requiredRole admin is denied; a request with no session identity is
redirected to the login view; and while the auth check or the role fetch is
in flight the gate renders the loading state, which is neither the
protected outlet nor a denial. -/
theorem c8_access_gate :
    (∀ (u : String) (store : String → Option (Option Role)),
      store u = some (some Role.staff) →
      protectedRouteView (some u) store adminRouteRequiredRole
        = RouteView.accessDenied)
    ∧ (∀ (store : String → Option (Option Role)) (req : Option Role),
      protectedRouteView none store req = RouteView.redirectLogin)
    ∧ (∀ (al rl : Bool) (err : Option String) (user : Option String)
        (req userRole : Option Role), al = true ∨ rl = true →
      renderProtectedRoute al rl err user req userRole = RouteView.loadingView
      ∧ RouteView.loadingView ≠ RouteView.outlet
      ∧ RouteView.loadingView ≠ RouteView.accessDenied) := by
  refine ⟨?_, ?_, ?_⟩
  · intro u store h
    simp [protectedRouteView, fetchRoleState, getUserRole, h,
      renderProtectedRoute, adminRouteRequiredRole]
  · intro store req
    simp [protectedRouteView, fetchRoleState, renderProtectedRoute]
  · intro al rl err user req userRole h
    refine ⟨?_, by simp, by simp⟩
    simp [renderProtectedRoute, h]

/-- Witness for C8: a concrete staff identity is denied the admin route, the
missing identity is redirected, and the gate with the role fetch in flight
shows the loading view. -/
theorem c8_access_gate_witness :
    (protectedRouteView (some "u1") (fun _ => some (some Role.staff))
      adminRouteRequiredRole = RouteView.accessDenied)
    ∧ (protectedRouteView none (fun _ => some (some Role.staff))
        (some Role.admin) = RouteView.redirectLogin)
    ∧ (renderProtectedRoute false true none (some "u1") (some Role.admin)
        (some Role.staff) = RouteView.loadingView) := by
  refine ⟨?_, ?_, ?_⟩
  · exact c8_access_gate.1 "u1" (fun _ => some (some Role.staff)) rfl
  · exact c8_access_gate.2.1 (fun _ => some (some Role.staff)) (some Role.admin)
  · exact (c8_access_gate.2.2 false true none (some "u1") (some Role.admin)
      (some Role.staff) (Or.inr rfl)).1

/-- Claim C9: in the sales, purchases and adjustments list comparators, a
record whose active sort column is null or undefined compares before a
record whose column holds any non-null value when the order is ascending,
and after it when the order is descending, whatever the column and the type
of the non-null value. -/
theorem c9_null_values_sort_first :
    (∀ (k : SaleKey) (o : SortOrder) (a b : SaleRow),
      a k = FieldValue.null → b k ≠ FieldValue.null →
      salesComparator k o a b = (if o = SortOrder.asc then -1 else 1)
      ∧ salesComparator k o b a = (if o = SortOrder.asc then 1 else -1))
    ∧ (∀ (k : PurchaseKey) (o : SortOrder) (a b : PurchaseRow),
      a k = FieldValue.null → b k ≠ FieldValue.null →
      purchasesComparator k o a b = (if o = SortOrder.asc then -1 else 1)
      ∧ purchasesComparator k o b a = (if o = SortOrder.asc then 1 else -1))
    ∧ (∀ (k : AdjustmentKey) (o : SortOrder) (a b : AdjustmentRow),
      a k = FieldValue.null → b k ≠ FieldValue.null →
      adjustmentsComparator k o a b = (if o = SortOrder.asc then -1 else 1)
      ∧ adjustmentsComparator k o b a = (if o = SortOrder.asc then 1 else -1)) := by
  refine ⟨?_, ?_, ?_⟩
  · intro k o a b ha hb
    constructor <;> simp [salesComparator, compareSortValues, ha, hb]
  · intro k o a b ha hb
    constructor <;> simp [purchasesComparator, compareSortValues, ha, hb]
  · intro k o a b ha hb
    constructor <;> simp [adjustmentsComparator, compareSortValues, ha, hb]

/-- Witness for C9: a sales row with no profit value sorts before a row
with profit 5 ascending and after it descending, and likewise for a
purchases row with no timestamp and an adjustments row with no name. -/
theorem c9_null_values_sort_first_witness :
    (salesComparator SaleKey.profit SortOrder.asc (fun _ => FieldValue.null)
      (fun _ => FieldValue.num 5) = -1)
    ∧ (salesComparator SaleKey.profit SortOrder.desc (fun _ => FieldValue.null)
      (fun _ => FieldValue.num 5) = 1)
    ∧ (purchasesComparator PurchaseKey.purchasedAt SortOrder.asc
      (fun _ => FieldValue.null) (fun _ => FieldValue.time 9) = -1)
    ∧ (adjustmentsComparator AdjustmentKey.name SortOrder.desc
      (fun _ => FieldValue.str "b") (fun _ => FieldValue.null) = -1) := by
  refine ⟨?_, ?_, ?_, ?_⟩
  · exact ((c9_null_values_sort_first.1 SaleKey.profit SortOrder.asc
      (fun _ => FieldValue.null) (fun _ => FieldValue.num 5) rfl
      (by simp)).1).trans (by norm_num)
  · exact ((c9_null_values_sort_first.1 SaleKey.profit SortOrder.desc
      (fun _ => FieldValue.null) (fun _ => FieldValue.num 5) rfl
      (by simp)).1).trans (by simp)
  · exact ((c9_null_values_sort_first.2.1 PurchaseKey.purchasedAt SortOrder.asc
      (fun _ => FieldValue.null) (fun _ => FieldValue.time 9) rfl
      (by simp)).1).trans (by norm_num)
  · exact ((c9_null_values_sort_first.2.2 AdjustmentKey.name SortOrder.desc
      (fun _ => FieldValue.null) (fun _ => FieldValue.str "b") rfl
      (by simp)).2).trans (by simp)

/-- Counterexample to C10 as stated: a record created through the inventory
page carries createdBy, the edit payload does not, and the merge keeps the
stored value — so the post-edit document is not the payload-determined
document and not every stored field is overwritten. -/
theorem c10_counterexample :
    inventoryPageAdjustment.createdBy = some "u1"
    ∧ (adjustmentUpdatePayload negAdjustmentForm widgetItem 8).createdBy = none
    ∧ (applyAdjustmentUpdate inventoryPageAdjustment
        (adjustmentUpdatePayload negAdjustmentForm widgetItem 8)).createdBy
      = some "u1"
    ∧ applyAdjustmentUpdate inventoryPageAdjustment
        (adjustmentUpdatePayload negAdjustmentForm widgetItem 8)
      ≠ adjustmentRecordToSave negAdjustmentForm widgetItem 8 := by
  refine ⟨rfl, rfl, rfl, ?_⟩
  intro hcontra
  have h := congrArg AdjustmentRecord.createdBy hcontra
  simp [applyAdjustmentUpdate, adjustmentUpdatePayload, adjustmentRecordToSave,
    inventoryPageAdjustment] at h

/-- Claim C10 amended: editing an existing AdjustmentRecord updates it with
a payload carrying itemId, name, quantity, reason, date, category and
createdAt, the latter set to the time of the edit; after the merge each of
those seven fields holds the payload value whatever the original document
held, and the original creation timestamp is not preserved whenever the
edit happens at a different time.  The payload carries no createdBy, so the
createdBy that the inventory page adjust flow stamps into its records
survives the edit unchanged. -/
theorem c10_adjustment_edit_fields :
    (∀ (editing : AdjustmentRecord) (form : AdjustmentForm) (sel : InventoryItem)
        (origOpt : Option AdjustmentRecord) (sq : Option ℚ) (now : ℚ),
      form.itemId ≠ "" → form.quantity ≠ 0 → form.reason ≠ "" → form.date ≠ "" →
      (submitAdjustment (some editing) form (some sel) origOpt sq now).recordUpdate
        = some (adjustmentUpdatePayload form sel now))
    ∧ (∀ (d : AdjustmentRecord) (form : AdjustmentForm) (sel : InventoryItem) (now : ℚ),
      applyAdjustmentUpdate d (adjustmentUpdatePayload form sel now)
        = { itemId := form.itemId
            name := sel.name
            quantity := form.quantity
            reason := form.reason
            date := form.date
            category := sel.category
            createdAt := now
            createdBy := d.createdBy }
      ∧ (adjustmentUpdatePayload form sel now).createdBy = none)
    ∧ (∀ (d : AdjustmentRecord) (form : AdjustmentForm) (sel : InventoryItem) (now : ℚ),
      now ≠ d.createdAt →
      (applyAdjustmentUpdate d (adjustmentUpdatePayload form sel now)).createdAt
        ≠ d.createdAt)
    ∧ (∀ (item : InventoryItem) (qc : ℚ) (reason date : String) (now : ℚ)
        (uid : Option String) res,
      handleAdjust item (some qc) reason date now uid = some res →
      res.2.createdBy = uid) := by
  refine ⟨?_, ?_, ?_, ?_⟩
  · intro editing form sel origOpt sq now hid hqz hr hd
    cases origOpt <;> cases sq <;>
      · simp [submitAdjustment, hid, hqz, hr, hd]
        try split <;> rfl
  · intro d form sel now
    exact ⟨rfl, rfl⟩
  · intro d form sel now h
    simpa [applyAdjustmentUpdate, adjustmentUpdatePayload] using h
  · intro item qc reason date now uid res hres
    by_cases hv : qc = 0 ∨ reason = "" ∨ date = ""
    · simp [handleAdjust, hv] at hres
    · by_cases hneg : item.quantity + qc < 0
      · simp [handleAdjust, hv, hneg] at hres
      · simp [handleAdjust, hv, hneg] at hres
        rw [← hres]

/-- Witness for amended C10: editing the inventory-page record (createdAt 5,
createdBy u1) at time 8 rewrites the seven payload fields, moves createdAt
to 8 and keeps createdBy u1, and a fresh inventory-page adjustment indeed
stores the current user id. -/
theorem c10_adjustment_edit_fields_witness :
    ((submitAdjustment (some inventoryPageAdjustment) negAdjustmentForm
      (some widgetItem) (some inventoryPageAdjustment) (some 10) 8).recordUpdate
      = some (adjustmentUpdatePayload negAdjustmentForm widgetItem 8))
    ∧ (applyAdjustmentUpdate inventoryPageAdjustment
        (adjustmentUpdatePayload negAdjustmentForm widgetItem 8)
        = { itemId := "i1"
            name := "Widget"
            quantity := -3
            reason := "Correction"
            date := "2026-01-01"
            category := "general"
            createdAt := 8
            createdBy := some "u1" })
    ∧ ((applyAdjustmentUpdate inventoryPageAdjustment
        (adjustmentUpdatePayload negAdjustmentForm widgetItem 8)).createdAt ≠ 5)
    ∧ ((handleAdjust widgetItem (some (-2)) "Correction" "2026-01-01" 0
        (some "u7")).map (fun r => r.2.createdBy) = some (some "u7")) := by
  refine ⟨?_, ?_, ?_, ?_⟩
  · exact c10_adjustment_edit_fields.1 inventoryPageAdjustment negAdjustmentForm
      widgetItem (some inventoryPageAdjustment) (some 10) 8
      (by simp [negAdjustmentForm]) (by norm_num [negAdjustmentForm])
      (by simp [negAdjustmentForm]) (by simp [negAdjustmentForm])
  · have h := (c10_adjustment_edit_fields.2.1 inventoryPageAdjustment
      negAdjustmentForm widgetItem 8).1
    rw [h]
    norm_num [negAdjustmentForm, widgetItem, inventoryPageAdjustment]
  · have h := c10_adjustment_edit_fields.2.2.1 inventoryPageAdjustment
      negAdjustmentForm widgetItem 8 (by norm_num [inventoryPageAdjustment])
    simpa [inventoryPageAdjustment] using h
  · cases hcase : handleAdjust widgetItem (some (-2)) "Correction" "2026-01-01" 0
      (some "u7") with
    | none =>
        exfalso
        norm_num [handleAdjust, widgetItem] at hcase
        exact Option.noConfusion (hcase (by decide) (by decide))
    | some res =>
        have h2 := c10_adjustment_edit_fields.2.2.2 widgetItem (-2) "Correction"
          "2026-01-01" 0 (some "u7") res hcase
        simp only [Option.map_some']
        rw [h2]

/-- Counterexample to C1 as stated: selling 3 units of the one-unit item
through handleSell is not rejected and writes the negative quantity -2 to
the inventory document. -/
theorem c1_counterexample :
    (handleSell lowStockItem 3 4 "" "" 0).map (fun r => r.1.quantity)
      = some (some (-2))
    ∧ ((-2 : ℚ) < 0) := by
  constructor
  · norm_num [handleSell, lowStockItem]
  · norm_num

/-- Claim C1 amended: only part of the mutation surface guards against
negative quantities.  The adjust flow of the inventory page rejects, before
both writes, a change that would make the quantity negative, and any change
it does apply stores a non-negative quantity; the adjustment delete and
purchase delete flows likewise reject before both writes.  The adjustment
edit and purchase edit flows cancel only the inventory write when it would
go negative, after the history-record update has already been applied.  The
sell flow decrements the quantity with no stock check, the sale edit flow
applies the old-minus-new difference with no sign check, the add-adjustment
flow inserts its record and applies even a negative quantity, and the
add-sale flow inserts the sale record before the stock check, so an
insufficient stock only withholds the inventory write. -/
theorem c1_negative_quantity_guards :
    (∀ (item : InventoryItem) (qc : ℚ) (reason date : String) (now : ℚ)
        (uid : Option String),
      item.quantity + qc < 0 →
      handleAdjust item (some qc) reason date now uid = none)
    ∧ (∀ (item : InventoryItem) (qc : ℚ) (reason date : String) (now : ℚ)
        (uid : Option String) res,
      handleAdjust item (some qc) reason date now uid = some res →
      res.1.quantity = some (item.quantity + qc) ∧ 0 ≤ item.quantity + qc)
    ∧ (∀ (adj : AdjustmentRecord) (q : ℚ), q - adj.quantity < 0 →
      handleDeleteAdjustment adj (some q)
        = { inventoryWrite := none, recordDeleted := false })
    ∧ (∀ (pur : PurchaseRecord) (q : ℚ), q - pur.quantity < 0 →
      handleDeletePurchase pur (some q)
        = { inventoryWrite := none, recordDeleted := false })
    ∧ (∀ (editing orig : AdjustmentRecord) (form : AdjustmentForm)
        (sel : InventoryItem) (q now : ℚ),
      form.itemId ≠ "" → form.quantity ≠ 0 → form.reason ≠ "" → form.date ≠ "" →
      q + (form.quantity - orig.quantity) < 0 →
      submitAdjustment (some editing) form (some sel) (some orig) (some q) now
        = { recordInsert := none
            recordUpdate := some (adjustmentUpdatePayload form sel now)
            inventoryWrite := none })
    ∧ (∀ (editing orig : PurchaseRecord) (form : PurchaseForm)
        (sel : InventoryItem) (q t : ℚ),
      form.itemId ≠ "" → 0 < form.quantity → 0 ≤ form.price →
      form.purchasedAt = some t →
      q + (form.quantity - orig.quantity) < 0 →
      submitPurchase (some editing) form (some sel) (some orig) (some q)
        = { recordInsert := none
            recordUpdate := some (purchaseRecordToSave form sel t)
            inventoryWrite := none })
    ∧ (∀ (item : InventoryItem) (q p : ℚ) (cn cm : String) (now : ℚ),
      0 < q → 0 < p →
      (handleSell item q p cn cm now).map (fun r => r.1.quantity)
        = some (some (item.quantity - q)))
    ∧ (∀ (form : AdjustmentForm) (sel : InventoryItem) (q now : ℚ),
      form.itemId ≠ "" → form.quantity ≠ 0 → form.reason ≠ "" → form.date ≠ "" →
      submitAdjustment none form (some sel) none (some q) now
        = { recordInsert := some (adjustmentRecordToSave form sel now)
            recordUpdate := none
            inventoryWrite := some (q + form.quantity) })
    ∧ (∀ (form : SaleForm) (sel : InventoryItem) (q t : ℚ),
      form.itemId ≠ "" → 0 < form.quantity → 0 < form.price →
      form.soldAt = some t → q < form.quantity →
      submitSale none form (some sel) (some q)
        = { saleWrite := some (saleRecordToSave form sel t)
            inventoryWrite := none }) := by
  refine ⟨?_, ?_, ?_, ?_, ?_, ?_, ?_, ?_, ?_⟩
  · intro item qc reason date now uid h
    by_cases hv : qc = 0 ∨ reason = "" ∨ date = ""
    · simp [handleAdjust, hv]
    · simp [handleAdjust, hv, h]
  · intro item qc reason date now uid res hres
    by_cases hv : qc = 0 ∨ reason = "" ∨ date = ""
    · simp [handleAdjust, hv] at hres
    · by_cases hneg : item.quantity + qc < 0
      · simp [handleAdjust, hv, hneg] at hres
      · simp [handleAdjust, hv, hneg] at hres
        exact ⟨by rw [← hres], not_lt.mp hneg⟩
  · intro adj q h
    simp [handleDeleteAdjustment, h]
  · intro pur q h
    simp [handleDeletePurchase, h]
  · intro editing orig form sel q now hid hqz hr hd h
    simp [submitAdjustment, hid, hqz, hr, hd, h]
  · intro editing orig form sel q t hid hq hp ht h
    simp [submitPurchase, hid, hq.not_le, not_lt.mpr hp, ht, h]
  · intro item q p cn cm now hq hp
    simp [handleSell, hq.not_le, hp.not_le]
  · intro form sel q now hid hqz hr hd
    simp [submitAdjustment, hid, hqz, hr, hd]
  · intro form sel q t hid hq hp ht hstock
    simp [submitSale, hid, hq.not_le, hp.not_le, ht, not_le.mpr hstock]

/-- Witness for amended C1: concrete runs of every guarded and unguarded
flow, including an adjustment of -3 applied to a fetched quantity of 1,
which stores the negative value -2 while still inserting its record. -/
theorem c1_negative_quantity_guards_witness :
    (handleAdjust widgetItem (some (-12)) "Correction" "2026-01-01" 0
      (some "u1") = none)
    ∧ ((handleAdjust widgetItem (some (-3)) "Correction" "2026-01-01" 0
        (some "u1")).map (fun r => r.1.quantity) = some (some 7))
    ∧ (handleDeleteAdjustment storedAdjustment (some 1)
        = { inventoryWrite := none, recordDeleted := false })
    ∧ (handleDeletePurchase storedWidgetPurchase (some 3)
        = { inventoryWrite := none, recordDeleted := false })
    ∧ (submitAdjustment (some storedAdjustment) negAdjustmentForm
        (some widgetItem) (some storedAdjustment) (some 4) 8
        = { recordInsert := none
            recordUpdate := some (adjustmentUpdatePayload negAdjustmentForm widgetItem 8)
            inventoryWrite := none })
    ∧ (submitPurchase (some storedWidgetPurchase) widgetPurchaseForm
        (some widgetItem) (some storedWidgetPurchase) (some (-2))
        = { recordInsert := none
            recordUpdate := some (purchaseRecordToSave widgetPurchaseForm widgetItem 0)
            inventoryWrite := none })
    ∧ ((handleSell lowStockItem 2 5 "" "" 0).map (fun r => r.1.quantity)
        = some (some (-1)))
    ∧ (submitAdjustment none negAdjustmentForm (some widgetItem) none (some 1) 8
        = { recordInsert := some (adjustmentRecordToSave negAdjustmentForm widgetItem 8)
            recordUpdate := none
            inventoryWrite := some (-2) })
    ∧ (submitSale none widgetSaleForm (some lowStockItem) (some 1)
        = { saleWrite := some (saleRecordToSave widgetSaleForm lowStockItem 0)
            inventoryWrite := none }) := by
  refine ⟨?_, ?_, ?_, ?_, ?_, ?_, ?_, ?_, ?_⟩
  · exact c1_negative_quantity_guards.1 widgetItem (-12) "Correction"
      "2026-01-01" 0 (some "u1") (by norm_num [widgetItem])
  · cases hcase : handleAdjust widgetItem (some (-3)) "Correction" "2026-01-01" 0
      (some "u1") with
    | none =>
        exfalso
        norm_num [handleAdjust, widgetItem] at hcase
        exact Option.noConfusion (hcase (by decide) (by decide))
    | some res =>
        have h2 := (c1_negative_quantity_guards.2.1 widgetItem (-3) "Correction"
          "2026-01-01" 0 (some "u1") res hcase).1
        simp only [Option.map_some']
        rw [h2]
        norm_num [widgetItem]
  · exact c1_negative_quantity_guards.2.2.1 storedAdjustment 1
      (by norm_num [storedAdjustment])
  · exact c1_negative_quantity_guards.2.2.2.1 storedWidgetPurchase 3
      (by norm_num [storedWidgetPurchase])
  · exact c1_negative_quantity_guards.2.2.2.2.1 storedAdjustment storedAdjustment
      negAdjustmentForm widgetItem 4 8 (by simp [negAdjustmentForm])
      (by norm_num [negAdjustmentForm]) (by simp [negAdjustmentForm])
      (by simp [negAdjustmentForm])
      (by norm_num [negAdjustmentForm, storedAdjustment])
  · exact c1_negative_quantity_guards.2.2.2.2.2.1 storedWidgetPurchase
      storedWidgetPurchase widgetPurchaseForm widgetItem (-2) 0
      (by simp [widgetPurchaseForm]) (by norm_num [widgetPurchaseForm])
      (by norm_num [widgetPurchaseForm]) rfl
      (by norm_num [widgetPurchaseForm, storedWidgetPurchase])
  · have h := c1_negative_quantity_guards.2.2.2.2.2.2.1 lowStockItem 2 5 "" "" 0
      (by norm_num) (by norm_num)
    rw [h]
    norm_num [lowStockItem]
  · have h := c1_negative_quantity_guards.2.2.2.2.2.2.2.1 negAdjustmentForm
      widgetItem 1 8 (by simp [negAdjustmentForm])
      (by norm_num [negAdjustmentForm]) (by simp [negAdjustmentForm])
      (by simp [negAdjustmentForm])
    rw [h]
    norm_num [negAdjustmentForm]
  · exact c1_negative_quantity_guards.2.2.2.2.2.2.2.2 widgetSaleForm lowStockItem
      1 0 (by simp [widgetSaleForm]) (by norm_num [widgetSaleForm])
      (by norm_num [widgetSaleForm]) rfl
      (by norm_num [widgetSaleForm])

/-- Counterexample to C2 as stated: requesting 2 units of the one-unit item
through handleSell is not rejected before any write: the run returns its
writes, the inventory document receiving quantity -1. -/
theorem c2_counterexample :
    (lowStockItem.quantity < 2)
    ∧ (handleSell lowStockItem 2 5 "" "" 0).isSome = true
    ∧ (handleSell lowStockItem 2 5 "" "" 0).map (fun r => r.1.quantity)
      = some (some (-1)) := by
  refine ⟨by norm_num [lowStockItem], ?_, ?_⟩
  · norm_num [handleSell, lowStockItem]
  · norm_num [handleSell, lowStockItem]

/-- Claim C2 amended: of the three sell paths only the staff dashboard
handleCreateSale rejects a sale whose requested quantity exceeds the
current stock before any write (and with sufficient stock performs both
writes); the inventory page handleSell performs no stock check and issues
both the inventory decrement and the sale insert; and the sales page add
flow inserts the SaleRecord before its stock check, so insufficient stock
only withholds the inventory write. -/
theorem c2_sell_stock_check :
    (∀ (item : InventoryItem) (q p now : ℚ), item.quantity < q →
      handleCreateSale (some item) q (some p) now = none)
    ∧ (∀ (item : InventoryItem) (q p now : ℚ), 0 < q → q ≤ item.quantity →
      handleCreateSale (some item) q (some p) now
        = some ({ items := [{ itemId := item.id
                              name := item.name
                              quantity := q
                              price := p }]
                  total := q * p
                  date := now },
                item.quantity - q))
    ∧ (∀ (item : InventoryItem) (q p : ℚ) (cn cm : String) (now : ℚ),
      0 < q → 0 < p → item.quantity < q →
      (handleSell item q p cn cm now).isSome = true
      ∧ (handleSell item q p cn cm now).map (fun r => r.1.quantity)
        = some (some (item.quantity - q)))
    ∧ (∀ (form : SaleForm) (sel : InventoryItem) (q t : ℚ),
      form.itemId ≠ "" → 0 < form.quantity → 0 < form.price →
      form.soldAt = some t → q < form.quantity →
      ((submitSale none form (some sel) (some q)).saleWrite
        = some (saleRecordToSave form sel t))
      ∧ (submitSale none form (some sel) (some q)).inventoryWrite = none) := by
  refine ⟨?_, ?_, ?_, ?_⟩
  · intro item q p now h
    by_cases hq : q ≤ 0
    · simp [handleCreateSale, hq]
    · simp [handleCreateSale, hq, h]
  · intro item q p now hq hstock
    simp [handleCreateSale, hq.not_le, not_lt.mpr hstock]
  · intro item q p cn cm now hq hp hstock
    constructor
    · simp [handleSell, hq.not_le, hp.not_le]
    · simp [handleSell, hq.not_le, hp.not_le]
  · intro form sel q t hid hq hp ht hstock
    constructor
    · simp [submitSale, hid, hq.not_le, hp.not_le, ht, not_le.mpr hstock]
    · simp [submitSale, hid, hq.not_le, hp.not_le, ht, not_le.mpr hstock]

/-- Witness for amended C2: the staff dashboard rejects selling 2 of 1 unit
and accepts selling 1, while handleSell and the sales page add flow both
write even with 2 units requested against a stock of 1. -/
theorem c2_sell_stock_check_witness :
    (handleCreateSale (some lowStockItem) 2 (some 5) 0 = none)
    ∧ (handleCreateSale (some lowStockItem) 1 (some 5) 0
        = some ({ items := [{ itemId := "i3"
                              name := "Bolt"
                              quantity := 1
                              price := 5 }]
                  total := 5
                  date := 0 }, 0))
    ∧ ((handleSell lowStockItem 2 5 "" "" 0).isSome = true)
    ∧ ((submitSale none widgetSaleForm (some lowStockItem) (some 1)).saleWrite
        = some (saleRecordToSave widgetSaleForm lowStockItem 0))
    ∧ ((submitSale none widgetSaleForm (some lowStockItem) (some 1)).inventoryWrite
        = none) := by
  refine ⟨?_, ?_, ?_, ?_, ?_⟩
  · exact c2_sell_stock_check.1 lowStockItem 2 5 0 (by norm_num [lowStockItem])
  · have h := c2_sell_stock_check.2.1 lowStockItem 1 5 0 (by norm_num)
      (by norm_num [lowStockItem])
    rw [h]
    norm_num [lowStockItem]
  · exact (c2_sell_stock_check.2.2.1 lowStockItem 2 5 "" "" 0 (by norm_num)
      (by norm_num) (by norm_num [lowStockItem])).1
  · exact (c2_sell_stock_check.2.2.2 widgetSaleForm lowStockItem 1 0
      (by simp [widgetSaleForm]) (by norm_num [widgetSaleForm])
      (by norm_num [widgetSaleForm]) rfl (by norm_num [widgetSaleForm])).1
  · exact (c2_sell_stock_check.2.2.2 widgetSaleForm lowStockItem 1 0
      (by simp [widgetSaleForm]) (by norm_num [widgetSaleForm])
      (by norm_num [widgetSaleForm]) rfl (by norm_num [widgetSaleForm])).2

/-- Counterexample to C3 as stated: purchasing 5 units at unit price 7
through handlePurchase against the stored price 3 leaves the stored price
at 3, so the operation does not update both price and avgCost. -/
theorem c3_counterexample :
    (handlePurchase widgetItem 5 7 0).map
      (fun r => (applyInventoryUpdate widgetItem r.1).price) = some 3
    ∧ ((3 : ℚ) ≠ 7) := by
  constructor
  · norm_num [handlePurchase, applyInventoryUpdate, widgetItem]
  · norm_num

/-- Claim C3 amended: a purchase through the inventory page handlePurchase
(which demands p strictly positive) increments the quantity by q and sets
avgCost to (c0 times Q0 plus p times q) over (Q0 plus q), a missing avgCost
read as 0 — in particular a zero-quantity item gets avgCost p — but leaves
the stored price unchanged; a purchase added through the purchases page
(which allows p = 0) increments the quantity by q and sets price to p but
leaves avgCost unchanged.  No purchase path updates both fields. -/
theorem c3_purchase_updates :
    (∀ (item : InventoryItem) (q p now : ℚ), 0 < q → 0 < p →
      (handlePurchase item q p now).map (fun r => applyInventoryUpdate item r.1)
        = some { id := item.id
                 name := item.name
                 quantity := item.quantity + q
                 price := item.price
                 avgCost := some ((item.avgCost.getD 0 * item.quantity + p * q)
                   / (item.quantity + q))
                 category := item.category
                 lastUpdated := now })
    ∧ (∀ (item : InventoryItem) (q p now : ℚ), 0 < q → 0 < p →
      item.quantity = 0 →
      (handlePurchase item q p now).map
        (fun r => (applyInventoryUpdate item r.1).avgCost) = some (some p))
    ∧ (∀ (form : PurchaseForm) (sel item : InventoryItem) (q t : ℚ),
      form.itemId ≠ "" → 0 < form.quantity → 0 ≤ form.price →
      form.purchasedAt = some t →
      ((submitPurchase none form (some sel) none (some q)).recordInsert
        = some (purchaseRecordToSave form sel t))
      ∧ (submitPurchase none form (some sel) none (some q)).inventoryWrite.map
          (fun u => applyInventoryUpdate item u)
        = some { id := item.id
                 name := item.name
                 quantity := q + form.quantity
                 price := form.price
                 avgCost := item.avgCost
                 category := item.category
                 lastUpdated := item.lastUpdated }) := by
  refine ⟨?_, ?_, ?_⟩
  · intro item q p now hq hp
    simp [handlePurchase, hq.not_le, hp.not_le, applyInventoryUpdate, mul_comm]
  · intro item q p now hq hp hzero
    simp [handlePurchase, hq.not_le, hp.not_le, applyInventoryUpdate, hzero,
      mul_div_assoc]
    rw [mul_div_assoc', mul_comm, mul_div_assoc, div_self hq.ne', mul_one]
  · intro form sel item q t hid hq hp ht
    constructor
    · simp [submitPurchase, hid, hq.not_le, not_lt.mpr hp, ht]
    · simp [submitPurchase, hid, hq.not_le, not_lt.mpr hp, ht,
        applyInventoryUpdate]

/-- Witness for amended C3: purchasing 5 at 7 against quantity 10 and
average cost 5 yields quantity 15, avgCost 85 over 15 and price still 3;
purchasing into the empty-stock gadget yields avgCost 7; the purchases page
add flow writes quantity 15 and price 7 and keeps avgCost 5. -/
theorem c3_purchase_updates_witness :
    ((handlePurchase widgetItem 5 7 0).map (fun r => applyInventoryUpdate widgetItem r.1)
      = some { id := "i1"
               name := "Widget"
               quantity := 15
               price := 3
               avgCost := some (85 / 15)
               category := "general"
               lastUpdated := 0 })
    ∧ ((handlePurchase { id := "i4"
                         name := "Empty"
                         quantity := 0
                         price := 1
                         avgCost := none
                         category := "general"
                         lastUpdated := 0 } 5 7 0).map
        (fun r => (applyInventoryUpdate { id := "i4"
                                          name := "Empty"
                                          quantity := 0
                                          price := 1
                                          avgCost := none
                                          category := "general"
                                          lastUpdated := 0 } r.1).avgCost)
        = some (some 7))
    ∧ ((submitPurchase none widgetPurchaseForm (some widgetItem) none
        (some 10)).inventoryWrite.map (fun u => applyInventoryUpdate widgetItem u)
        = some { id := "i1"
                 name := "Widget"
                 quantity := 15
                 price := 7
                 avgCost := some 5
                 category := "general"
                 lastUpdated := 0 }) := by
  refine ⟨?_, ?_, ?_⟩
  · have h := c3_purchase_updates.1 widgetItem 5 7 0 (by norm_num) (by norm_num)
    rw [h]
    norm_num [widgetItem]
  · exact c3_purchase_updates.2.1
      { id := "i4"
        name := "Empty"
        quantity := 0
        price := 1
        avgCost := none
        category := "general"
        lastUpdated := 0 } 5 7 0 (by norm_num) (by norm_num) rfl
  · have h := (c3_purchase_updates.2.2 widgetPurchaseForm widgetItem widgetItem
      10 0 (by simp [widgetPurchaseForm]) (by norm_num [widgetPurchaseForm])
      (by norm_num [widgetPurchaseForm]) rfl).2
    rw [h]
    norm_num [widgetItem, widgetPurchaseForm]

end InventoryApp
